import Mathlib

/-!
Verification development for the CraccTracc sailing-telemetry pipeline.

Shallow embedding of the modules the claims are about:
  * cracctracc/modules/manoeuvres.py  (fix_heading, apply_PoS, identify_manoeuvres)
  * cracctracc/modules/vkx_parser.py  (unpack_vkx record framing)
  * cracctracc/modules/gpx_parser.py  (unpack_gpx per-point time extraction)
  * cracctracc/modules/parser.py      (sog2knots, add_twd, fix_rounding, trim_race, parse)

Degrees and speeds are modelled as rationals; the arithmetic the claims exercise
is exact at this granularity.  Pandas column operations are modelled row-wise
with the previous row passed explicitly (the semantics of Series.shift), and
pandas NaN-comparison semantics (NaN != x is True, NaN > x is False) are encoded
at each comparison site exactly as the source hits them.
-/

namespace CraccTracc

/-- Python abs() on a rational. -/
def pyabs (x : ℚ) : ℚ := if x < 0 then -x else x

/-- manoeuvres.fix_heading: convert a heading and a true wind direction to a
true wind angle.  Source: manoeuvres.py lines 29-43. -/
def fix_heading (heading true_wind : ℚ) : ℚ :=
  let h1 : ℚ := if heading < 0 then 360 - pyabs heading else heading
  let h2 : ℚ := h1 - true_wind
  if h2 > 180 then -180 + pyabs (180 - h2)
  else if h2 ≤ -180 then 180 - pyabs (180 + h2)
  else h2

inductive PoS where
  | headToWind
  | upwind
  | reach
  | downwind
  deriving DecidableEq, Repr

inductive Tack where
  | port
  | starboard
  deriving DecidableEq, Repr

/-- pd.cut(x, [0, 30, 60, 95, 180], labels, include_lowest=True): right-closed
bins, the first bin also closed on the left; values outside all bins map to NaN
(None here).  Source: manoeuvres.py lines 103-106 applied to abs(rel_heading). -/
def pos_cut (v : ℚ) : Option PoS :=
  if 0 ≤ v ∧ v ≤ 30 then some PoS.headToWind
  else if 30 < v ∧ v ≤ 60 then some PoS.upwind
  else if 60 < v ∧ v ≤ 95 then some PoS.reach
  else if 95 < v ∧ v ≤ 180 then some PoS.downwind
  else none

/-- The point-of-sail column of apply_PoS for one row: pos_cut of abs(twa). -/
def apply_PoS_pos (twa : ℚ) : Option PoS := pos_cut (pyabs twa)

/-- pd.cut(rel_heading, [-180, 0, 180], labels, include_lowest=True): bin
[-180, 0] is Port, bin (0, 180] is Starboard.  Source: manoeuvres.py 108-111. -/
def tack_cut (v : ℚ) : Option Tack :=
  if -180 ≤ v ∧ v ≤ 0 then some Tack.port
  else if 0 < v ∧ v ≤ 180 then some Tack.starboard
  else none

/-- The four boolean event columns identify_manoeuvres adds to one row. -/
structure Flags where
  tacks : Bool
  gybe : Bool
  roundup : Bool
  bearaway : Bool
  deriving DecidableEq, Repr

/-- pandas semantics of (shifted != current) on the tack column: a comparison
involving NaN (the shifted-in value on the first row, or an out-of-range cut)
yields True for !=. -/
def ne_shift (a b : Option Tack) : Bool :=
  match a, b with
  | some x, some y => decide (x ≠ y)
  | _, _ => true

/-- One row of identify_manoeuvres (manoeuvres.py lines 133-141).  `prev` is the
previous row's (tack, rel_heading), absent on the first row.  pandas semantics:
a > or <= comparison against the shifted-in NaN is False. -/
def flags_row (prev : Option (Option Tack × ℚ)) (twa : ℚ) : Flags :=
  let tackChanged : Bool :=
    match prev with
    | none => true
    | some pr => ne_shift pr.1 (tack_cut twa)
  let prevGt90 : Bool :=
    match prev with
    | none => false
    | some pr => decide (pyabs pr.2 > 90)
  let prevLe90 : Bool :=
    match prev with
    | none => false
    | some pr => decide (pyabs pr.2 ≤ 90)
  { tacks := tackChanged && decide (pyabs twa ≤ 90)
    gybe := tackChanged && decide (pyabs twa > 90)
    roundup := prevGt90 && decide (pyabs twa ≤ 90)
    bearaway := prevLe90 && decide (pyabs twa > 90) }

/-- Recursion over the rel_heading column, carrying the previous row. -/
def identify_go (prev : Option (Option Tack × ℚ)) : List ℚ → List Flags
  | [] => []
  | twa :: rest => flags_row prev twa :: identify_go (some (tack_cut twa, twa)) rest

/-- manoeuvres.identify_manoeuvres on a track whose rel_heading column is
`twas`, with the tack column as apply_PoS computes it from the same column. -/
def identify_manoeuvres (twas : List ℚ) : List Flags := identify_go none twas

/-- Number of event flags set on one row. -/
def flags_count (f : Flags) : Nat :=
  (if f.tacks then 1 else 0) + (if f.gybe then 1 else 0) +
    (if f.roundup then 1 else 0) + (if f.bearaway then 1 else 0)

/-- The wind-angle formula as the spec states it (spec 4.4): normalize the
heading into [0,360), subtract twd, wrap into (-180,180] by subtracting 360
when above 180 and adding 360 when at most -180. -/
def twa_spec (h twd : ℚ) : ℚ :=
  let h1 : ℚ := if h < 0 then 360 - |h| else h
  let raw : ℚ := h1 - twd
  if raw > 180 then raw - 360 else if raw ≤ -180 then raw + 360 else raw

/-- Point-of-sail bucket table with inclusive-high boundaries, the amendment of
claim C3 forced by pd.cut's right-closed bins. -/
def pos_table_ih (v : ℚ) : PoS :=
  if v ≤ 30 then PoS.headToWind
  else if v ≤ 60 then PoS.upwind
  else if v ≤ 95 then PoS.reach
  else PoS.downwind

/-- Tack table with the boundary twa = 0 on Port, the amendment of claim C5:
Port on [-180, 0], Starboard on (0, 180]. -/
def tack_table (v : ℚ) : Tack :=
  if v ≤ 0 then Tack.port else Tack.starboard

/-! ## vkx_parser.unpack_vkx: record framing of the binary format

The format_strings table of vkx_parser.py lines 56-71, reduced to the byte
size struct.calcsize gives each little-endian layout (the field values are not
needed by any claim about the framing). -/

/-- Payload size in bytes for each recognized row key (struct.Struct sizes of
the format_strings table). -/
def vkx_record_size (tag : Nat) : Option Nat :=
  if tag = 0xFF then some 7        -- <B6x
  else if tag = 0xFE then some 2   -- <H
  else if tag = 0x02 then some 44  -- <Qii7f
  else if tag = 0x03 then some 20  -- <Qfii
  else if tag = 0x04 then some 13  -- <QBi
  else if tag = 0x05 then some 17  -- <QBii
  else if tag = 0x06 then some 18  -- <QBBff
  else if tag = 0x08 then some 13  -- <Q4xB
  else if tag = 0x0A then some 16  -- <Qff
  else if tag = 0x01 then some 32  -- <32x
  else if tag = 0x07 then some 12  -- <12x
  else if tag = 0x0E then some 16  -- <16x
  else if tag = 0x20 then some 13  -- <13x
  else none

inductive VkxError where
  | truncated
  deriving DecidableEq, Repr

/-- Result of the unpack_vkx loop: raw payloads of tag-0x02 records, the
(tag, payload) entries routed into course_data (tags 4, 5, 6, 10), and the
row keys that were only logged as warnings. -/
structure VkxData where
  gps : List (List Nat)
  course : List (Nat × List Nat)
  warnings : List Nat
  deriving DecidableEq, Repr

/-- vkx_parser.unpack_vkx (lines 102-131) on a byte stream: read one row key;
an unrecognized key is logged and the loop continues at the next byte; a
recognized key consumes its fixed payload (struct.unpack raises on a short
read, modelled as the truncated error). -/
def unpack_vkx : List Nat → Except VkxError VkxData
  | [] => .ok ⟨[], [], []⟩
  | key :: rest =>
    match vkx_record_size key with
    | none =>
      match unpack_vkx rest with
      | .ok d => .ok ⟨d.gps, d.course, key :: d.warnings⟩
      | .error e => .error e
    | some sz =>
      if sz ≤ rest.length then
        match unpack_vkx (rest.drop sz) with
        | .ok d =>
          if key = 2 then .ok ⟨rest.take sz :: d.gps, d.course, d.warnings⟩
          else if key = 4 ∨ key = 5 ∨ key = 6 ∨ key = 10 then
            .ok ⟨d.gps, (key, rest.take sz) :: d.course, d.warnings⟩
          else .ok d
        | .error e => .error e
      else .error .truncated
  termination_by l => l.length
  decreasing_by
    · simp
    · simp [List.length_drop]; omega

/-! ## gpx_parser.unpack_gpx: per-point time extraction -/

/-- An ElementTree element: tag, text, child elements. -/
inductive Element where
  | mk (tag : String) (text : Option String) (children : List Element)

def Element.tag : Element → String
  | .mk t _ _ => t

def Element.text : Element → Option String
  | .mk _ tx _ => tx

def Element.children : Element → List Element
  | .mk _ _ c => c

/-- Tag of a track point's time child (namespace prefix elided). -/
def time_tag : String := "time"

/-- Tag of a track point element (namespace prefix elided). -/
def trkpt_tag : String := "trkpt"

/-- Element.find(tag): first direct child with the given tag, or None. -/
def elem_find (e : Element) (t : String) : Option Element :=
  e.children.find? (fun c => c.tag == t)

/-- Python truthiness of an ElementTree Element: an Element tests as false when
it has no child elements (its text is irrelevant to the test). -/
def elem_truthy (e : Element) : Bool := !e.children.isEmpty

/-- The time extraction of gpx_parser.unpack_gpx for one track point (lines
64-81): time defaults to 0; it is replaced only when the found time element is
truthy and has non-empty text, in which case the text minus its trailing
character is fed to the ISO-8601-to-epoch-milliseconds conversion
(datetime.fromisoformat(...).timestamp() times 1000, passed in as a
parameter); a final time of 0 raises ValueError. -/
def point_time (parse_iso_ms : String → Int) (point : Element) : Except Unit Int :=
  let element := elem_find point time_tag
  let time : Int :=
    match element with
    | some e =>
      if elem_truthy e then
        match e.text with
        | some s => if s.length ≠ 0 then parse_iso_ms (s.dropRight 1) else 0
        | none => 0
      else 0
    | none => 0
  if time = 0 then .error () else .ok time

/-! ## parser.py: sog2knots, add_twd, fix_rounding, trim_race, parse -/

/-- One row of the assembled table.  alt, roll, pitch are absent for the GPX
source; twd is filled by add_twd. -/
structure Row where
  UTC : Int
  lat : ℚ
  lon : ℚ
  sog : ℚ
  cog : ℚ
  hdg : ℚ
  alt : Option ℚ
  roll : Option ℚ
  pitch : Option ℚ
  twd : Option ℚ
  deriving DecidableEq, Repr

/-- parser.sog2knots: sog in m/s times 900/463 gives knots. -/
def sog2knots (r : Row) : Row := { r with sog := r.sog * 900 / 463 }

/-- parser.add_twd: set the twd column to the static value. -/
def add_twd (twd : ℚ) (r : Row) : Row := { r with twd := some twd }

/-- Round-half-to-even to an integer (the rounding of numpy/pandas .round). -/
def round_half_even (x : ℚ) : ℤ :=
  let f := ⌊x⌋
  if x - f < 1 / 2 then f
  else if 1 / 2 < x - f then f + 1
  else if f % 2 = 0 then f else f + 1

/-- pandas Series.round(d): round-half-even at d decimal places. -/
def round_dp (d : ℕ) (x : ℚ) : ℚ := (round_half_even (x * 10 ^ d) : ℚ) / 10 ^ d

/-- parser.fix_rounding (lines 26-38): sog, cog, hdg always rounded to 4
decimal places; when the table has an alt column (the VKX source), alt is
rounded to 1 and roll, pitch to 4. -/
def fix_rounding (hasAlt : Bool) (r : Row) : Row :=
  let r1 := { r with sog := round_dp 4 r.sog, cog := round_dp 4 r.cog, hdg := round_dp 4 r.hdg }
  if hasAlt then
    { r1 with
      alt := r1.alt.map (round_dp 1)
      roll := r1.roll.map (round_dp 4)
      pitch := r1.pitch.map (round_dp 4) }
  else r1

/-- A race timer record (tag 4) as trim_race consumes it: (utc, code, timer). -/
abbrev RTRecord : Type := Int × Nat × Int

/-- The course_data dict: row key to decoded record list. -/
abbrev CourseData : Type := List (Nat × List RTRecord)

/-- The loop of parser.trim_race lines 53-65: fold over the tag-4 records,
the last code-3 utc winning for the start and the last code-4 utc for the
end, starting from (0, len(df)). -/
def race_timer_scan (init : Int × Int) (items : List RTRecord) : Int × Int :=
  items.foldl
    (fun acc item =>
      if item.2.1 = 3 then (item.1, acc.2)
      else if item.2.1 = 4 then (acc.1, item.1)
      else acc)
    init

inductive ParseError where
  | keyError
  | valueError
  deriving DecidableEq, Repr

/-- parser.trim_race (lines 41-87).  course_data[4] is read unconditionally
(KeyError when tag 4 never occurred); a None start or end is filled from the
scan of the race timer records; the df is filtered to UTC between the two
bounds (inclusive).  The race_df computed when both bounds are given (line 49)
is overwritten by the final filter (line 86) and has no effect. -/
def trim_race (df : List Row) (course_data : CourseData)
    (race_start race_end : Option Int) : Except ParseError (List Row) :=
  match course_data.lookup 4 with
  | none => .error .keyError
  | some items =>
    let vkx := race_timer_scan (0, (df.length : Int)) items
    let rs : Int := match race_start with | none => vkx.1 | some v => v
    let re : Int := match race_end with | none => vkx.2 | some v => v
    .ok (df.filter (fun r => decide (rs ≤ r.UTC) && decide (r.UTC ≤ re)))

/-- Python len(str(n)) for an integer, via the decimal digit list. -/
def len_str_int (n : Int) : Nat :=
  if n < 0 then 1 + (Nat.toDigits 10 n.natAbs).length
  else (Nat.toDigits 10 n.natAbs).length

/-- Python truthiness of an optional integer: None and 0 are falsy. -/
def int_truthy : Option Int → Bool
  | none => false
  | some v => decide (v ≠ 0)

/-- The two front ends as parse sees them: gpx_df yields a table only, vkx_df
yields a table and the course_data dict. -/
inductive Source where
  | gpx (df : List Row)
  | vkx (df : List Row) (course_data : CourseData)

/-- parser.parse (lines 90-136): sog conversion, static twd (150 for GPX,
33.75 for VKX), fix_rounding on both branches, first-row drop for GPX; for
the VKX branch (where course_data exists) the 13-digit check on given bounds,
then trim_race. -/
def parse : Source → Option Int → Option Int → Except ParseError (List Row)
  | .gpx df, _, _ =>
    let df1 := (df.map sog2knots).map (add_twd 150)
    let df2 := df1.map (fix_rounding false)
    .ok (df2.drop 1)
  | .vkx df course_data, race_start, race_end =>
    let df1 := (df.map sog2knots).map (add_twd 33.75)
    let df2 := df1.map (fix_rounding true)
    if int_truthy race_start && decide (len_str_int (race_start.getD 0) ≠ 13) then
      .error .valueError
    else if int_truthy race_end && decide (len_str_int (race_end.getD 0) ≠ 13) then
      .error .valueError
    else trim_race df2 course_data race_start race_end

/-- A rational that carries at most d decimal places: an integer multiple of
10 to the minus d. -/
def quantized (d : ℕ) (x : ℚ) : Prop := ∃ k : ℤ, x = (k : ℚ) / 10 ^ d

/-! ## Helper lemmas -/

theorem pyabs_eq_abs (x : ℚ) : pyabs x = |x| := by
  unfold pyabs
  rcases lt_or_le x 0 with hx | hx
  · rw [if_pos hx, abs_of_neg hx]
  · rw [if_neg (not_lt.2 hx), abs_of_nonneg hx]

theorem fix_heading_eq_twa_spec (a b : ℚ) : fix_heading a b = twa_spec a b := by
  simp only [fix_heading, twa_spec, pyabs_eq_abs]
  split_ifs <;> first
    | rfl
    | (rw [abs_of_nonpos (by linarith)]; ring)

theorem wrap_range (raw : ℚ) (hl : -360 < raw) (hr : raw < 360) :
    -180 < (if raw > 180 then raw - 360 else if raw ≤ -180 then raw + 360 else raw) ∧
    (if raw > 180 then raw - 360 else if raw ≤ -180 then raw + 360 else raw) ≤ 180 := by
  split_ifs with c1 c2 <;> constructor <;> linarith

theorem flags_row_mutex (pr : Option (Option Tack × ℚ)) (t : ℚ) :
    ¬((flags_row pr t).tacks = true ∧ (flags_row pr t).gybe = true) ∧
    ¬((flags_row pr t).roundup = true ∧ (flags_row pr t).bearaway = true) := by
  unfold flags_row
  rcases le_or_lt (pyabs t) 90 with h | h
  · simp [h, not_lt.2 h]
  · simp [h, not_le.2 h]

theorem mem_identify_go (twas : List ℚ) :
    ∀ (prev : Option (Option Tack × ℚ)) (f : Flags), f ∈ identify_go prev twas →
      ∃ pr t, f = flags_row pr t := by
  induction twas with
  | nil => intro prev f hf; simp [identify_go] at hf
  | cons a l ih =>
    intro prev f hf
    simp only [identify_go] at hf
    rcases List.mem_cons.1 hf with h | h
    · exact ⟨prev, a, h⟩
    · exact ih _ f h

/-! ## Claims C1 to C5: the manoeuvre classification pipeline -/

/-- C1: evaluation of the manoeuvre detector on the TWA sequence
[-150, -80, 80, 150, -150], tack recomputed from the TWA at each step.  The
last four samples carry exactly the flags RoundUp, Tack, BearAway, Gybe as the
claim states, but the FIRST sample is flagged as a Gybe (the shifted tack
column compares as not-equal against the shifted-in NaN, and abs(-150) > 90),
where the claim requires no manoeuvre event on a sample with no
predecessor. -/
theorem C1_manoeuvre_labels_eval :
    identify_manoeuvres [-150, -80, 80, 150, -150] =
      [⟨false, true, false, false⟩, ⟨false, false, true, false⟩,
       ⟨true, false, false, false⟩, ⟨false, false, false, true⟩,
       ⟨false, true, false, false⟩] := by decide

/-- C2: counterexample.  On the TWA sequence [-150, 80] the second sample
changes tack (Port to Starboard) while abs(twa) crosses the 90-degree
threshold downward; the code sets BOTH its Tack flag and its RoundUp flag, so
two of the four manoeuvre event flags are set on one sample, refuting both the
at-most-one-event claim and the claimed Tack/Gybe precedence. -/
theorem C2_two_flags_counterexample :
    identify_manoeuvres [-150, 80] =
      [⟨false, true, false, false⟩, ⟨true, false, true, false⟩] ∧
    flags_count ⟨true, false, true, false⟩ = 2 := by decide

/-- C2 amended: the exclusivity that does hold is within each pair: no sample
ever has both the Tack and the Gybe flag set, and no sample ever has both the
RoundUp and the BearAway flag set (each pair is guarded by complementary
comparisons of abs(twa) against 90); a tack change that coincides with a
90-degree crossing sets one flag from each pair. -/
theorem C2_flag_pairs_exclusive (twas : List ℚ) (f : Flags)
    (hf : f ∈ identify_manoeuvres twas) :
    ¬(f.tacks = true ∧ f.gybe = true) ∧ ¬(f.roundup = true ∧ f.bearaway = true) := by
  obtain ⟨pr, t, rfl⟩ := mem_identify_go twas none f hf
  exact flags_row_mutex pr t

theorem C2_flag_pairs_exclusive_witness :
    ¬((Flags.mk true false true false).tacks = true ∧
        (Flags.mk true false true false).gybe = true) ∧
    ¬((Flags.mk true false true false).roundup = true ∧
        (Flags.mk true false true false).bearaway = true) :=
  C2_flag_pairs_exclusive [-150, 80] (Flags.mk true false true false) (by decide)

/-- C3: counterexample.  pd.cut with bounds [0, 30, 60, 95, 180] uses
right-closed bins, so the boundaries are inclusive-HIGH: abs(twa) = 30 is
classified HeadToWind, not Upwind as the claim's inclusive-low reading
states (and 60 is Upwind, 95 is Reach). -/
theorem C3_boundary_counterexample :
    apply_PoS_pos 30 = some PoS.headToWind ∧ PoS.headToWind ≠ PoS.upwind ∧
    apply_PoS_pos 60 = some PoS.upwind ∧ apply_PoS_pos 95 = some PoS.reach :=
  ⟨by norm_num [apply_PoS_pos, pos_cut, pyabs], by decide,
   by norm_num [apply_PoS_pos, pos_cut, pyabs], by norm_num [apply_PoS_pos, pos_cut, pyabs]⟩

/-- C3 amended: for abs(twa) at most 180 the point of sail is the
inclusive-high bucket table: [0,30] HeadToWind, (30,60] Upwind, (60,95] Reach,
(95,180] Downwind; in particular 30 is HeadToWind, 60 is Upwind and 95 is
Reach. -/
theorem C3_pos_buckets_inclusive_high (twa : ℚ) (h : |twa| ≤ 180) :
    apply_PoS_pos twa = some (pos_table_ih |twa|) := by
  have h0 : 0 ≤ |twa| := abs_nonneg twa
  unfold apply_PoS_pos
  rw [pyabs_eq_abs]
  unfold pos_cut pos_table_ih
  rcases le_or_lt |twa| 30 with c1 | c1
  · rw [if_pos ⟨h0, c1⟩, if_pos c1]
  · rw [if_neg (fun hx => absurd hx.2 (not_le.2 c1)), if_neg (not_le.2 c1)]
    rcases le_or_lt |twa| 60 with c2 | c2
    · rw [if_pos ⟨c1, c2⟩, if_pos c2]
    · rw [if_neg (fun hx => absurd hx.2 (not_le.2 c2)), if_neg (not_le.2 c2)]
      rcases le_or_lt |twa| 95 with c3 | c3
      · rw [if_pos ⟨c2, c3⟩, if_pos c3]
      · rw [if_neg (fun hx => absurd hx.2 (not_le.2 c3)), if_neg (not_le.2 c3),
          if_pos ⟨c3, h⟩]

theorem C3_pos_buckets_inclusive_high_witness :
    apply_PoS_pos 100 = some (pos_table_ih |(100 : ℚ)|) :=
  C3_pos_buckets_inclusive_high 100 (by norm_num)

/-- C4: fix_heading computes exactly the spec's formula: normalize the heading
into [0,360) (h negative becomes 360 minus its magnitude), subtract twd, wrap
into (-180,180] by subtracting 360 above 180 and adding 360 at or below -180;
the result lies in (-180,180]; heading 150 with twd 150 gives twa 0 and
heading -170 with twd 0 gives twa -170. -/
theorem C4_fix_heading_matches_spec (h twd : ℚ) (hh1 : -180 < h) (hh2 : h ≤ 180)
    (ht1 : 0 ≤ twd) (ht2 : twd < 360) :
    fix_heading h twd = twa_spec h twd ∧
    (-180 < fix_heading h twd ∧ fix_heading h twd ≤ 180) ∧
    fix_heading 150 150 = 0 ∧ fix_heading (-170) 0 = -170 := by
  have hnorm : 0 ≤ (if h < 0 then 360 - |h| else h) ∧ (if h < 0 then 360 - |h| else h) < 360 := by
    split_ifs with hc
    · rw [abs_of_neg hc]; constructor <;> linarith
    · exact ⟨not_lt.1 hc, by linarith⟩
  have hlb : -360 < (if h < 0 then 360 - |h| else h) - twd := by
    rcases hnorm with ⟨a, b⟩; linarith
  have hub : (if h < 0 then 360 - |h| else h) - twd < 360 := by
    rcases hnorm with ⟨a, b⟩; linarith
  have hw := wrap_range ((if h < 0 then 360 - |h| else h) - twd) hlb hub
  refine ⟨fix_heading_eq_twa_spec h twd, ⟨?_, ?_⟩, ?_, ?_⟩
  · rw [fix_heading_eq_twa_spec]
    simp only [twa_spec]
    exact hw.1
  · rw [fix_heading_eq_twa_spec]
    simp only [twa_spec]
    exact hw.2
  · norm_num [fix_heading, pyabs]
  · norm_num [fix_heading, pyabs]

theorem C4_fix_heading_matches_spec_witness :
    fix_heading 150 150 = twa_spec 150 150 ∧
    (-180 < fix_heading 150 150 ∧ fix_heading 150 150 ≤ 180) ∧
    fix_heading 150 150 = 0 ∧ fix_heading (-170) 0 = -170 :=
  C4_fix_heading_matches_spec 150 150 (by norm_num) (by norm_num) (by norm_num) (by norm_num)

/-- C5: counterexample.  Heading 0 with twd 180 does give twa = 180, but
pd.cut puts 180 in the right-closed bin (0, 180], so it is classified
Starboard, not Port as the claim's boundary sentence states. -/
theorem C5_twa180_counterexample :
    fix_heading 0 180 = 180 ∧ tack_cut (fix_heading 0 180) = some Tack.starboard ∧
    Tack.starboard ≠ Tack.port := by
  have h : fix_heading 0 180 = 180 := by norm_num [fix_heading, pyabs]
  exact ⟨h, by rw [h]; norm_num [tack_cut], by decide⟩

/-- C5 amended: for twa in [-180, 180] the tack column is Port exactly on
[-180, 0] and Starboard on (0, 180]; twa = 0 is Port, and the boundary case
heading 0 with twd 180 yields twa 180 which is classified Starboard. -/
theorem C5_tack_buckets (twa : ℚ) (h1 : -180 ≤ twa) (h2 : twa ≤ 180) :
    tack_cut twa = some (tack_table twa) ∧ tack_cut 0 = some Tack.port := by
  constructor
  · unfold tack_cut tack_table
    rcases le_or_lt twa 0 with hc | hc
    · rw [if_pos ⟨h1, hc⟩, if_pos hc]
    · rw [if_neg (fun hx => absurd hx.2 (not_le.2 hc)), if_neg (not_le.2 hc),
        if_pos ⟨hc, h2⟩]
  · norm_num [tack_cut]

theorem C5_tack_buckets_witness :
    tack_cut (-45) = some (tack_table (-45)) ∧ tack_cut 0 = some Tack.port :=
  C5_tack_buckets (-45) (by norm_num) (by norm_num)

/-! ## Claims C6 and C7: the two front ends' error handling -/

/-- C6: evaluation at the failing input.  On the byte stream
[0x09, 0xFE, 0x07, 0x07], whose first byte is a row key absent from the
format table, unpack_vkx does NOT fail: it records a warning for key 9,
resumes reading at the very next byte (decoding 0xFE 0x07 0x07 as a page
terminator record) and returns successfully — it silently resynchronizes past
the unknown tag instead of raising the fatal error the claim requires. -/
theorem C6_unknown_tag_not_fatal :
    unpack_vkx [9, 254, 7, 7] = .ok ⟨[], [], [9]⟩ := by
  simp [unpack_vkx, vkx_record_size]

/-- C7: evaluation at the failing input.  A track point whose time child
element carries a valid ISO-8601 text but (as always for GPX) no child
elements is REJECTED: the code guards the text read with the element's Python
truthiness, which is the child count, so the time stays 0 and ValueError is
raised — for every conversion function, i.e. however the timestamp text would
have parsed.  This refutes the claim's guarantee that points with a valid
time element are never rejected. -/
theorem C7_valid_time_point_rejected (parse_iso_ms : String → Int) (s : String) :
    point_time parse_iso_ms (Element.mk trkpt_tag none [Element.mk time_tag (some s) []]) =
      .error () := rfl

/-! ## Claims C8 to C10: the assembly pipeline of parser.py -/

theorem round_dp_quantized (d : ℕ) (x : ℚ) : quantized d (round_dp d x) :=
  ⟨round_half_even (x * 10 ^ d), rfl⟩

theorem fix_rounding_quantized (b : Bool) (r : Row) :
    quantized 4 (fix_rounding b r).sog ∧ quantized 4 (fix_rounding b r).cog ∧
    quantized 4 (fix_rounding b r).hdg := by
  unfold fix_rounding
  split_ifs <;>
    exact ⟨round_dp_quantized 4 _, round_dp_quantized 4 _, round_dp_quantized 4 _⟩

theorem fix_rounding_alt_quantized (r : Row) (a : ℚ)
    (ha : (fix_rounding true r).alt = some a) : quantized 1 a := by
  simp only [fix_rounding, if_pos] at ha
  obtain ⟨a0, ha0, rfl⟩ := Option.map_eq_some'.1 ha
  exact round_dp_quantized 1 a0

/-- C8: counterexample.  parse applies fix_rounding on the GPX branch as well:
a GPX row whose speed is 1 m/s comes out with sog = 1.9438 knots, the
4-decimal rounding of 900/463 — the XML source's numeric columns are NOT left
unrounded. -/
theorem C8_gpx_rounded_counterexample :
    parse (.gpx [⟨0, 0, 0, 1, 0, 0, none, none, none, none⟩,
                 ⟨1, 0, 0, 1, 0, 0, none, none, none, none⟩]) none none =
      .ok [⟨1, 0, 0, 9719 / 5000, 0, 0, none, none, none, some 150⟩] ∧
    (9719 / 5000 : ℚ) ≠ 1 * 900 / 463 := by
  constructor
  · simp [parse, sog2knots, add_twd, fix_rounding, round_dp, round_half_even]
    norm_num [Int.fract]
  · norm_num

/-- C8 amended: the sog, cog and hdg columns of EVERY successfully parsed
source — binary and XML alike — are rounded to 4 decimal places (every output
value is an integer multiple of 10^-4), and on the binary source an altitude
value present in the output is rounded to 1 decimal place. -/
theorem C8_both_sources_rounded (src : Source) (rs re : Option Int) (out : List Row)
    (hout : parse src rs re = .ok out) (r : Row) (hr : r ∈ out) :
    quantized 4 r.sog ∧ quantized 4 r.cog ∧ quantized 4 r.hdg ∧
    (∀ df cd, src = Source.vkx df cd → ∀ a, r.alt = some a → quantized 1 a) := by
  cases src with
  | gpx df =>
    simp only [parse] at hout
    injection hout with hmm
    subst hmm
    have hr' := List.mem_of_mem_drop hr
    obtain ⟨r0, hr0, rfl⟩ := List.mem_map.1 hr'
    obtain ⟨q1, q2, q3⟩ := fix_rounding_quantized false r0
    exact ⟨q1, q2, q3, fun df' cd' hcontr => absurd hcontr (by simp)⟩
  | vkx df cd =>
    simp only [parse] at hout
    split at hout
    · simp at hout
    · split at hout
      · simp at hout
      · simp only [trim_race] at hout
        split at hout
        · simp at hout
        · injection hout with hmm
          subst hmm
          have hr' := List.mem_of_mem_filter hr
          obtain ⟨r0, hr0, rfl⟩ := List.mem_map.1 hr'
          obtain ⟨q1, q2, q3⟩ := fix_rounding_quantized true r0
          exact ⟨q1, q2, q3, fun df' cd' hsrc a ha =>
            fix_rounding_alt_quantized r0 a ha⟩

theorem C8_both_sources_rounded_witness :
    quantized 4 (Row.mk 1 0 0 (9719 / 5000) 0 0 none none none (some 150)).sog ∧
    quantized 4 (Row.mk 1 0 0 (9719 / 5000) 0 0 none none none (some 150)).cog ∧
    quantized 4 (Row.mk 1 0 0 (9719 / 5000) 0 0 none none none (some 150)).hdg ∧
    (∀ df cd,
      Source.gpx [Row.mk 0 0 0 1 0 0 none none none none,
                  Row.mk 1 0 0 1 0 0 none none none none] = Source.vkx df cd →
      ∀ a, (Row.mk 1 0 0 (9719 / 5000) 0 0 none none none (some 150)).alt = some a →
        quantized 1 a) :=
  C8_both_sources_rounded
    (.gpx [Row.mk 0 0 0 1 0 0 none none none none,
           Row.mk 1 0 0 1 0 0 none none none none]) none none
    [Row.mk 1 0 0 (9719 / 5000) 0 0 none none none (some 150)]
    (by
      simp [parse, sog2knots, add_twd, fix_rounding, round_dp, round_half_even]
      norm_num [Int.fract])
    (Row.mk 1 0 0 (9719 / 5000) 0 0 none none none (some 150))
    (by simp)

theorem race_timer_scan_getD (init : Int × Int) (items : List RTRecord) :
    (race_timer_scan init items).1 =
      (((items.filter (fun i => i.2.1 == 3)).getLast?).map (fun i => i.1)).getD init.1 ∧
    (race_timer_scan init items).2 =
      (((items.filter (fun i => i.2.1 == 4)).getLast?).map (fun i => i.1)).getD init.2 := by
  induction items using List.reverseRecOn with
  | nil => exact ⟨rfl, rfl⟩
  | append_singleton l a ih =>
    simp only [race_timer_scan, List.foldl_append, List.foldl_cons, List.foldl_nil,
      List.filter_append] at ih ⊢
    by_cases h3 : a.2.1 = 3
    · constructor
      · simp [h3, List.getLast?_concat]
      · simpa [h3] using ih.2
    · by_cases h4 : a.2.1 = 4
      · constructor
        · simpa [h3, h4] using ih.1
        · simp [h3, h4, List.getLast?_concat]
      · constructor
        · simpa [h3, h4] using ih.1
        · simpa [h3, h4] using ih.2

/-- C9: when the race timer records contain RACE_START (code 3) entries, the
scan of trim_race retains the utc of the LAST one as the race start, and
likewise the utc of the last RACE_END (code 4) entry as the race end,
whatever the initial defaults were. -/
theorem C9_last_race_marker_wins (init : Int × Int) (items : List RTRecord)
    (h3 : items.filter (fun i => i.2.1 == 3) ≠ [])
    (h4 : items.filter (fun i => i.2.1 == 4) ≠ []) :
    (race_timer_scan init items).1 = ((items.filter (fun i => i.2.1 == 3)).getLast h3).1 ∧
    (race_timer_scan init items).2 = ((items.filter (fun i => i.2.1 == 4)).getLast h4).1 := by
  obtain ⟨e1, e2⟩ := race_timer_scan_getD init items
  constructor
  · rw [e1, List.getLast?_eq_getLast _ h3]; rfl
  · rw [e2, List.getLast?_eq_getLast _ h4]; rfl

theorem C9_last_race_marker_wins_witness :
    (race_timer_scan (0, 5)
        [((100 : Int), 3, (0 : Int)), ((200 : Int), 3, (0 : Int)),
         ((300 : Int), 4, (0 : Int)), ((400 : Int), 4, (0 : Int))]).1 =
      (([((100 : Int), 3, (0 : Int)), ((200 : Int), 3, (0 : Int)),
         ((300 : Int), 4, (0 : Int)), ((400 : Int), 4, (0 : Int))].filter
          (fun i => i.2.1 == 3)).getLast (by decide)).1 ∧
    (race_timer_scan (0, 5)
        [((100 : Int), 3, (0 : Int)), ((200 : Int), 3, (0 : Int)),
         ((300 : Int), 4, (0 : Int)), ((400 : Int), 4, (0 : Int))]).2 =
      (([((100 : Int), 3, (0 : Int)), ((200 : Int), 3, (0 : Int)),
         ((300 : Int), 4, (0 : Int)), ((400 : Int), 4, (0 : Int))].filter
          (fun i => i.2.1 == 4)).getLast (by decide)).1 :=
  C9_last_race_marker_wins (0, 5)
    [((100 : Int), 3, (0 : Int)), ((200 : Int), 3, (0 : Int)),
     ((300 : Int), 4, (0 : Int)), ((400 : Int), 4, (0 : Int))]
    (by decide) (by decide)

/-- C10: a VKX parse whose record stream produced no race-timer record (no
key 4 in course_data) raises the KeyError of course_data[4] inside trim_race,
even when both race_start and race_end are supplied by the caller in valid
13-digit UNIX-millisecond form — the race-timer list is read
unconditionally. -/
theorem C10_missing_race_timer_key_error (df : List Row) (cd : CourseData)
    (rs re : Int) (hcd : cd.lookup 4 = none)
    (hrs : len_str_int rs = 13) (hre : len_str_int re = 13) :
    parse (.vkx df cd) (some rs) (some re) = .error .keyError := by
  simp [parse, hrs, hre, trim_race, hcd]

theorem C10_missing_race_timer_key_error_witness :
    parse (.vkx [] []) (some 1698473822000) (some 1698473822000) =
      .error .keyError :=
  C10_missing_race_timer_key_error [] [] 1698473822000 1698473822000 rfl
    (by decide) (by decide)

end CraccTracc
